import Mathlib

/-!
Shallow embedding of the trend-scout service.

The repository has two variants:
* the aggregator variant (`fetchRedditTrends`, `fetchHNTrends`, `fetchLobstersTrends`
  and the `get-trends` handler), and
* the scout variant (`fetchHackerNews`, `fetchReddit` and the `scout` /
  `deep-scout` handlers).

Network interaction is modelled by explicit environments: an `Upstream`
value describes the outcome of one outbound HTTP request (rejection,
status flag, parsed-or-unparsable body), and per-item endpoints are
modelled as functions from the item id to an `Except`-outcome.  JavaScript
`x || y` defaulting on possibly-absent fields is modelled with `Option`
and the `jsOrStr` / `jsOrOptStr` helpers (the empty string is falsy in
JavaScript, so it also triggers the fallback).  JavaScript's
`Array.prototype.sort` is stable (ES2019), so the handler's
`sort((a, b) => (b.score || 0) - (a.score || 0))` is modelled by the
stable `List.insertionSort` with the same comparison key.
-/

/-- JavaScript `o || d` for a possibly-absent string field:
absent and the empty string both fall back to the default. -/
def jsOrStr (o : Option String) (d : String) : String :=
  match o with
  | some s => if s = "" then d else s
  | none => d

/-- JavaScript `a || b` where both operands are possibly-absent strings. -/
def jsOrOptStr (a b : Option String) : Option String :=
  match a with
  | some s => if s = "" then b else some s
  | none => b

/-- Outcome of one outbound HTTP request: the promise rejects (`netError`),
or a response arrives with a success flag and a body that either parses to
the expected shape or fails to parse / has the wrong shape. -/
inductive Upstream (α : Type) where
  | netError : Upstream α
  | response (ok : Bool) (body : Except Unit α) : Upstream α

/-- An upstream outcome that is a network error, a non-success status, or a
parse failure. -/
def Upstream.isErr {α : Type} : Upstream α → Bool
  | .netError => true
  | .response ok body =>
      !ok || (match body with | .error _ => true | .ok _ => false)

/-- Fields of one Reddit post (`post.data` in the listing). -/
structure RedditPost where
  title : String
  permalink : String
  subreddit : String
  score : Option Int
  num_comments : Option Int
deriving DecidableEq, Repr

/-- Fields of one Hacker News item body. -/
structure HNStory where
  id : Nat
  title : String
  url : Option String
  score : Option Int
  descendants : Option Int
  byUser : String
deriving DecidableEq, Repr

/-- Fields of one Lobsters story from the hottest listing. -/
structure LobStory where
  title : String
  url : Option String
  short_id_url : Option String
  score : Option Int
  comment_count : Option Int
deriving DecidableEq, Repr

/-- Normalized trending entry (the `TrendItem` interface). -/
structure TrendItem where
  title : String
  source : String
  url : Option String
  score : Option Int
  comments : Option Int
deriving DecidableEq, Repr

/-- Hacker News upstream: the top-stories listing plus the per-id item
endpoint. -/
structure HNEnv where
  top : Upstream (List Nat)
  item : Nat → Except Unit HNStory

/-- Upstream environment seen by one `get-trends` invocation. -/
structure AggEnv where
  reddit : Upstream (List RedditPost)
  hn : HNEnv
  lobsters : Upstream (List LobStory)
  now : String

/-- `Promise.all` over the per-id item fetches: any rejection rejects the
whole batch. -/
def promiseAll {α : Type} (f : Nat → Except Unit α) : List Nat → Except Unit (List α)
  | [] => .ok []
  | i :: is =>
    match f i, promiseAll f is with
    | .ok a, .ok as => .ok (a :: as)
    | .error _, _ => .error ()
    | .ok _, .error _ => .error ()

/-- Mapping of one Reddit post to a `TrendItem` in `fetchRedditTrends`. -/
def redditItem (p : RedditPost) : TrendItem :=
  { title := p.title
    source := "reddit"
    url := some ("https://reddit.com" ++ p.permalink)
    score := p.score
    comments := p.num_comments }

/-- `fetchRedditTrends`: non-ok status returns `[]` inside the `try`;
rejection and parse failure are caught and return `[]`. -/
def fetchRedditTrends (u : Upstream (List RedditPost)) : List TrendItem :=
  match u with
  | .netError => []
  | .response ok body =>
    if ok then
      match body with
      | .error _ => []
      | .ok posts => posts.map redditItem
    else []

/-- Mapping of one Hacker News story to a `TrendItem` in `fetchHNTrends`:
`url: story.url || discussion-link`, `comments: story.descendants || 0`. -/
def hnItemOf (s : HNStory) : TrendItem :=
  { title := s.title
    source := "hackernews"
    url := some (jsOrStr s.url ("https://news.ycombinator.com/item?id=" ++ toString s.id))
    score := s.score
    comments := some (s.descendants.getD 0) }

/-- `fetchHNTrends`: checks the top-stories status, takes the first 10 ids,
fetches all of them (`Promise.all`), and maps with `hnItemOf`; every error
path yields `[]`. -/
def fetchHNTrends (env : HNEnv) : List TrendItem :=
  match env.top with
  | .netError => []
  | .response ok body =>
    if ok then
      match body with
      | .error _ => []
      | .ok ids =>
        match promiseAll env.item (ids.take 10) with
        | .error _ => []
        | .ok stories => stories.map hnItemOf
    else []

/-- Mapping of one Lobsters story to a `TrendItem` in `fetchLobstersTrends`:
`url: story.url || story.short_id_url`. -/
def lobItem (s : LobStory) : TrendItem :=
  { title := s.title
    source := "lobsters"
    url := jsOrOptStr s.url s.short_id_url
    score := s.score
    comments := s.comment_count }

/-- `fetchLobstersTrends`: non-ok status or any failure yields `[]`;
otherwise the first 10 stories are mapped with `lobItem`. -/
def fetchLobstersTrends (u : Upstream (List LobStory)) : List TrendItem :=
  match u with
  | .netError => []
  | .response ok body =>
    if ok then
      match body with
      | .error _ => []
      | .ok stories => (stories.take 10).map lobItem
    else []

/-- Source tags accepted by the `get-trends` input schema. -/
inductive SrcTag where
  | reddit
  | hackernews
  | lobsters
  | all
deriving DecidableEq, Repr

/-- String form of a source tag as it appears in the JSON. -/
def SrcTag.str : SrcTag → String
  | .reddit => "reddit"
  | .hackernews => "hackernews"
  | .lobsters => "lobsters"
  | .all => "all"

/-- Validated `get-trends` input (`trendsInputSchema`): the schema enforces
`1 <= limit <= 50` and defaults `sources` to `["all"]` and `limit` to 10. -/
structure TrendsInput where
  sources : List SrcTag
  limit : Nat
  category : Option String
deriving DecidableEq, Repr

/-- `get-trends` output (`TrendResponse`). -/
structure TrendResponse where
  trends : List TrendItem
  sources : List String
  timestamp : String
deriving DecidableEq, Repr

/-- Expansion of the requested sources: a list containing `"all"` expands
to the full known set. -/
def requestedOf (input : TrendsInput) : List SrcTag :=
  if input.sources.contains SrcTag.all then [SrcTag.reddit, SrcTag.hackernews, SrcTag.lobsters]
  else input.sources

/-- The per-source fetches actually launched, in the order the handler
pushes them onto `fetchPromises` (one membership-guarded branch per
source). -/
def dispatched (requested : List SrcTag) : List SrcTag :=
  (if requested.contains SrcTag.reddit then [SrcTag.reddit] else []) ++
  (if requested.contains SrcTag.hackernews then [SrcTag.hackernews] else []) ++
  (if requested.contains SrcTag.lobsters then [SrcTag.lobsters] else [])

/-- The fetch function each dispatched tag resolves to. -/
def fetchFor (env : AggEnv) : SrcTag → List TrendItem
  | SrcTag.reddit => fetchRedditTrends env.reddit
  | SrcTag.hackernews => fetchHNTrends env.hn
  | SrcTag.lobsters => fetchLobstersTrends env.lobsters
  | SrcTag.all => []

/-- Ranking key: `score || 0`. -/
def scoreKey (it : TrendItem) : Int := it.score.getD 0

/-- The comparison underlying `(b.score || 0) - (a.score || 0) <= 0`,
i.e. `a` may precede `b`. -/
def keyGE (a b : TrendItem) : Prop := scoreKey b ≤ scoreKey a

instance : DecidableRel keyGE :=
  fun a b => inferInstanceAs (Decidable (scoreKey b ≤ scoreKey a))

instance : IsTotal TrendItem keyGE :=
  ⟨fun a b => Int.le_total (scoreKey b) (scoreKey a)⟩

instance : IsTrans TrendItem keyGE :=
  ⟨fun _ _ _ hab hbc => le_trans hbc hab⟩

/-- `allTrends` after the `forEach` push: concatenation of the dispatched
fetch results in dispatch order. -/
def allTrendsOf (input : TrendsInput) (env : AggEnv) : List TrendItem :=
  (dispatched (requestedOf input)).flatMap (fetchFor env)

/-- `successSources`: the dispatched tags whose fetch returned at least one
item, as strings. -/
def successSourcesOf (input : TrendsInput) (env : AggEnv) : List String :=
  (((dispatched (requestedOf input)).filter (fun s => !(fetchFor env s).isEmpty)).map SrcTag.str)

/-- The `get-trends` handler: expand, fetch, concatenate, stable-sort by
score descending, truncate to `limit`, and report the successful sources
and a timestamp. -/
def getTrends (input : TrendsInput) (env : AggEnv) : TrendResponse :=
  { trends := (List.insertionSort keyGE (allTrendsOf input env)).take input.limit
    sources := successSourcesOf input env
    timestamp := env.now }

/-- Item shape produced by the scout variant's `fetchHackerNews`. -/
structure HNOut where
  title : String
  url : Option String
  score : Option Int
  byUser : String
  comments : Int
deriving DecidableEq, Repr

/-- One element of the scout response's `trends.hackernews` list: either a
mapped story or the `{error: 'Failed to fetch'}` marker produced by the
handler's catch branch. -/
inductive HNEntry where
  | item : HNOut → HNEntry
  | fetchFailed : HNEntry
deriving DecidableEq, Repr

/-- Item shape produced by the scout variant's `fetchReddit`. -/
structure RedditOut where
  title : String
  url : String
  score : Option Int
  subreddit : String
  comments : Option Int
deriving DecidableEq, Repr

/-- One element of the scout response's `trends.reddit` list. -/
inductive RedditEntry where
  | item : RedditOut → RedditEntry
  | fetchFailed : RedditEntry
deriving DecidableEq, Repr

/-- Upstream environment seen by one scout / deep-scout invocation.  The
Reddit response depends on the subreddit and limit in the request URL; the
body is `Except`-failed on rejection or parse failure, and otherwise
carries `data.data?.children` (possibly absent). -/
structure ScoutEnv where
  hn : HNEnv
  redditResp : String → Nat → Except Unit (Option (List RedditPost))
  now : String

/-- Mapping of one Hacker News story in the scout variant: the url is
copied as-is (no fallback) and `comments: s.descendants || 0`. -/
def hnOutOf (s : HNStory) : HNOut :=
  { title := s.title
    url := s.url
    score := s.score
    byUser := s.byUser
    comments := s.descendants.getD 0 }

/-- The scout variant's `fetchHackerNews(limit)`: no status check, no
catch; takes the first `limit` ids, fetches them all, maps with `hnOutOf`;
any rejection or parse failure propagates to the caller. -/
def fetchHackerNews (env : HNEnv) (limit : Nat) : Except Unit (List HNOut) :=
  match env.top with
  | .netError => .error ()
  | .response _ body =>
    match body with
    | .error _ => .error ()
    | .ok ids => (promiseAll env.item (ids.take limit)).map (fun stories => stories.map hnOutOf)

/-- Mapping of one Reddit child in the scout variant's `fetchReddit`. -/
def redditOutOf (c : RedditPost) : RedditOut :=
  { title := c.title
    url := "https://reddit.com" ++ c.permalink
    score := c.score
    subreddit := c.subreddit
    comments := c.num_comments }

/-- The scout variant's `fetchReddit(subreddit, limit)`: no status check,
no catch; `data.data?.children?.map(...) || []` yields `[]` when the
children path is absent; rejection or parse failure propagates. -/
def fetchReddit (env : ScoutEnv) (subreddit : String) (limit : Nat) : Except Unit (List RedditOut) :=
  match env.redditResp subreddit limit with
  | .error _ => .error ()
  | .ok none => .ok []
  | .ok (some children) => .ok (children.map redditOutOf)

/-- Request body `input` of scout / deep-scout (no schema validation is
applied on these routes; absent fields are defaulted with `||`). -/
structure ScoutInput where
  sources : Option (List String)
  query : Option String
deriving DecidableEq, Repr

/-- Output of a scout / deep-scout invocation.  `hackernews` / `reddit`
are the `trends` record's fields, present exactly when that source was
requested; `totalItems` is present only in deep-scout. -/
structure ScoutOutput where
  query : String
  sources : List String
  hackernews : Option (List HNEntry)
  reddit : Option (List RedditEntry)
  totalItems : Option Nat
  scoutedAt : String
deriving DecidableEq, Repr

/-- JavaScript `(xs?.length || 0)` on an optional list. -/
def optLen {α : Type} (o : Option (List α)) : Nat := (o.map List.length).getD 0

/-- The body shared by scout and deep-scout, parameterized by the
per-source fetch limit; `totalItems` is left absent. -/
def scoutTrendsAt (limit : Nat) (input : ScoutInput) (env : ScoutEnv) : ScoutOutput :=
  let sources := input.sources.getD ["hackernews", "reddit"]
  let query := jsOrStr input.query "technology"
  let hn : Option (List HNEntry) :=
    if sources.contains "hackernews" then
      some (match fetchHackerNews env.hn limit with
        | .ok l => l.map HNEntry.item
        | .error _ => [HNEntry.fetchFailed])
    else none
  let rd : Option (List RedditEntry) :=
    if sources.contains "reddit" then
      some (match fetchReddit env query limit with
        | .ok l => l.map RedditEntry.item
        | .error _ => [RedditEntry.fetchFailed])
    else none
  { query := query
    sources := sources
    hackernews := hn
    reddit := rd
    totalItems := none
    scoutedAt := env.now }

/-- The scout handler: per-source limit 5; a failed fetch is caught and
replaced by the one-element error-marker list. -/
def scoutHandler (input : ScoutInput) (env : ScoutEnv) : ScoutOutput :=
  let sources := input.sources.getD ["hackernews", "reddit"]
  let query := jsOrStr input.query "technology"
  let hn : Option (List HNEntry) :=
    if sources.contains "hackernews" then
      some (match fetchHackerNews env.hn 5 with
        | .ok l => l.map HNEntry.item
        | .error _ => [HNEntry.fetchFailed])
    else none
  let rd : Option (List RedditEntry) :=
    if sources.contains "reddit" then
      some (match fetchReddit env query 5 with
        | .ok l => l.map RedditEntry.item
        | .error _ => [RedditEntry.fetchFailed])
    else none
  { query := query
    sources := sources
    hackernews := hn
    reddit := rd
    totalItems := none
    scoutedAt := env.now }

/-- The deep-scout handler: per-source limit 15, plus
`totalItems: (trends.hackernews?.length || 0) + (trends.reddit?.length || 0)`. -/
def deepScoutHandler (input : ScoutInput) (env : ScoutEnv) : ScoutOutput :=
  let sources := input.sources.getD ["hackernews", "reddit"]
  let query := jsOrStr input.query "technology"
  let hn : Option (List HNEntry) :=
    if sources.contains "hackernews" then
      some (match fetchHackerNews env.hn 15 with
        | .ok l => l.map HNEntry.item
        | .error _ => [HNEntry.fetchFailed])
    else none
  let rd : Option (List RedditEntry) :=
    if sources.contains "reddit" then
      some (match fetchReddit env query 15 with
        | .ok l => l.map RedditEntry.item
        | .error _ => [RedditEntry.fetchFailed])
    else none
  { query := query
    sources := sources
    hackernews := hn
    reddit := rd
    totalItems := some (optLen hn + optLen rd)
    scoutedAt := env.now }

/-- A Hacker News story with no external url (used as a concrete input). -/
def storyNoUrl : HNStory :=
  { id := 1, title := "t", url := none, score := some 1, descendants := none, byUser := "u" }

/-- A Hacker News upstream serving one id whose story has no url. -/
def hnEnvNoUrl : HNEnv :=
  { top := Upstream.response true (Except.ok [1]), item := fun _ => Except.ok storyNoUrl }

/-- A concrete Reddit post. -/
def postA : RedditPost :=
  { title := "ra", permalink := "/r/a", subreddit := "a", score := some 7, num_comments := some 2 }

/-- A concrete aggregator environment: Reddit and Hacker News succeed,
Lobsters rejects. -/
def envW : AggEnv :=
  { reddit := Upstream.response true (Except.ok [postA])
    hn := hnEnvNoUrl
    lobsters := Upstream.netError
    now := "T" }

/-- A concrete aggregator environment in which every upstream rejects. -/
def envFail : AggEnv :=
  { reddit := Upstream.netError
    hn := { top := Upstream.netError, item := fun _ => Except.error () }
    lobsters := Upstream.netError
    now := "T" }

/-- A concrete scout environment whose fetches succeed with no items. -/
def envScoutW : ScoutEnv :=
  { hn := { top := Upstream.response true (Except.ok []), item := fun _ => Except.error () }
    redditResp := fun _ _ => Except.ok none
    now := "T" }

/-- A concrete scout environment whose Hacker News top-stories request
rejects with a network error. -/
def envHNFail : ScoutEnv :=
  { hn := { top := Upstream.netError, item := fun _ => Except.error () }
    redditResp := fun _ _ => Except.ok none
    now := "T" }

lemma filter_orderedInsert_keyGE (k : Int) (x : TrendItem) (l : List TrendItem) :
    (List.orderedInsert keyGE x l).filter (fun y => scoreKey y == k) =
      (if scoreKey x == k then [x] else []) ++ l.filter (fun y => scoreKey y == k) := by
  rw [List.orderedInsert_eq_take_drop, List.filter_append]
  have hl : l.filter (fun y => scoreKey y == k)
      = (l.takeWhile fun b => decide ¬ keyGE x b).filter (fun y => scoreKey y == k)
        ++ (l.dropWhile fun b => decide ¬ keyGE x b).filter (fun y => scoreKey y == k) := by
    rw [← List.filter_append, List.takeWhile_append_dropWhile]
  rw [hl, List.filter_cons]
  by_cases hx : scoreKey x = k
  · have htw : (l.takeWhile fun b => decide ¬ keyGE x b).filter (fun y => scoreKey y == k) = [] := by
      rw [List.filter_eq_nil_iff]
      intro a ha
      have h1 := List.mem_takeWhile_imp ha
      simp only [decide_eq_true_eq, keyGE, not_le] at h1
      simp only [beq_iff_eq]
      omega
    rw [htw]
    simp [hx]
  · simp [hx]

lemma filter_insertionSort_keyGE (k : Int) (l : List TrendItem) :
    (List.insertionSort keyGE l).filter (fun y => scoreKey y == k) =
      l.filter (fun y => scoreKey y == k) := by
  induction l with
  | nil => rfl
  | cons x xs ih =>
    rw [List.insertionSort, filter_orderedInsert_keyGE, ih, List.filter_cons]
    by_cases hx : scoreKey x = k <;> simp [hx]

lemma dispatched_eq_filter (r : List SrcTag) :
    dispatched r = [SrcTag.reddit, SrcTag.hackernews, SrcTag.lobsters].filter
      (fun s => r.contains s) := by
  by_cases hr : SrcTag.reddit ∈ r <;> by_cases hh : SrcTag.hackernews ∈ r <;>
    by_cases hl : SrcTag.lobsters ∈ r <;>
    simp [dispatched, hr, hh, hl, List.filter_cons]

lemma mem_dispatched {s : SrcTag} {r : List SrcTag} (h : s ∈ dispatched r) : s ∈ r := by
  rw [dispatched_eq_filter] at h
  have := (List.mem_filter.mp h).2
  exact List.elem_iff.mp this

lemma nodup_dispatched (r : List SrcTag) : (dispatched r).Nodup := by
  rw [dispatched_eq_filter]
  exact List.Nodup.filter _ (by decide)

lemma source_fetchRedditTrends {u : Upstream (List RedditPost)} {it : TrendItem}
    (h : it ∈ fetchRedditTrends u) : it.source = "reddit" := by
  cases u with
  | netError => cases h
  | response ok body =>
    cases ok with
    | false => simp [fetchRedditTrends] at h
    | true =>
      cases body with
      | error e => simp [fetchRedditTrends] at h
      | ok posts =>
        simp only [fetchRedditTrends, if_pos, List.mem_map] at h
        obtain ⟨p, _, rfl⟩ := h
        rfl

lemma source_fetchHNTrends {env : HNEnv} {it : TrendItem}
    (h : it ∈ fetchHNTrends env) : it.source = "hackernews" := by
  obtain ⟨top, item⟩ := env
  cases top with
  | netError => cases h
  | response ok body =>
    cases ok with
    | false => simp [fetchHNTrends] at h
    | true =>
      cases body with
      | error e => simp [fetchHNTrends] at h
      | ok ids =>
        simp only [fetchHNTrends] at h
        cases hp : promiseAll item (ids.take 10) with
        | error e => rw [hp] at h; simp at h
        | ok stories =>
          rw [hp] at h
          simp only [List.mem_map, if_pos] at h
          obtain ⟨s, _, rfl⟩ := h
          rfl

lemma source_fetchLobstersTrends {u : Upstream (List LobStory)} {it : TrendItem}
    (h : it ∈ fetchLobstersTrends u) : it.source = "lobsters" := by
  cases u with
  | netError => cases h
  | response ok body =>
    cases ok with
    | false => simp [fetchLobstersTrends] at h
    | true =>
      cases body with
      | error e => simp [fetchLobstersTrends] at h
      | ok stories =>
        simp only [fetchLobstersTrends, if_pos, List.mem_map] at h
        obtain ⟨s, _, rfl⟩ := h
        rfl

lemma source_fetchFor {env : AggEnv} {s : SrcTag} {it : TrendItem}
    (h : it ∈ fetchFor env s) : it.source = s.str := by
  cases s with
  | reddit => exact source_fetchRedditTrends h
  | hackernews => exact source_fetchHNTrends h
  | lobsters => exact source_fetchLobstersTrends h
  | all => cases h

lemma getTrends_env_congr {env1 env2 : AggEnv} (input : TrendsInput)
    (hf : ∀ s, fetchFor env1 s = fetchFor env2 s) (hnow : env1.now = env2.now) :
    getTrends input env1 = getTrends input env2 := by
  have h : fetchFor env1 = fetchFor env2 := funext hf
  simp only [getTrends, allTrendsOf, successSourcesOf, h, hnow]

lemma dispatched_congr {r1 r2 : List SrcTag} (h : ∀ s, s ∈ r1 ↔ s ∈ r2) :
    dispatched r1 = dispatched r2 := by
  have hc : ∀ s, r1.contains s = r2.contains s := by
    intro s
    cases hs : r2.contains s with
    | true => exact List.elem_iff.mpr ((h s).mpr (List.elem_iff.mp hs))
    | false =>
      cases hs1 : r1.contains s with
      | false => rfl
      | true =>
        have := (h s).mp (List.elem_iff.mp hs1)
        rw [← hs]
        exact (List.elem_iff.mpr this).symm
  unfold dispatched
  rw [hc, hc, hc]

lemma requestedOf_congr {l1 l2 : List SrcTag} (limit : Nat) (cat : Option String)
    (h : ∀ s, s ∈ l1 ↔ s ∈ l2) :
    ∀ s, s ∈ requestedOf ⟨l1, limit, cat⟩ ↔ s ∈ requestedOf ⟨l2, limit, cat⟩ := by
  have hall : l1.contains SrcTag.all = l2.contains SrcTag.all := by
    cases hs : l2.contains SrcTag.all with
    | true => exact List.elem_iff.mpr ((h _).mpr (List.elem_iff.mp hs))
    | false =>
      cases hs1 : l1.contains SrcTag.all with
      | false => rfl
      | true => rw [← hs]; exact (List.elem_iff.mpr ((h _).mp (List.elem_iff.mp hs1))).symm
  intro s
  simp only [requestedOf, hall]
  cases l2.contains SrcTag.all with
  | true => simp
  | false => simpa using h s

lemma getTrends_sources_congr {l1 l2 : List SrcTag} (limit : Nat) (cat : Option String)
    (env : AggEnv) (h : ∀ s, s ∈ l1 ↔ s ∈ l2) :
    getTrends ⟨l1, limit, cat⟩ env = getTrends ⟨l2, limit, cat⟩ env := by
  have hd : dispatched (requestedOf ⟨l1, limit, cat⟩) = dispatched (requestedOf ⟨l2, limit, cat⟩) :=
    dispatched_congr (requestedOf_congr limit cat h)
  simp only [getTrends, allTrendsOf, successSourcesOf, hd]

lemma promiseAll_ok_length {α : Type} {f : Nat → Except Unit α} :
    ∀ {l : List Nat} {res : List α}, promiseAll f l = Except.ok res → res.length = l.length := by
  intro l
  induction l with
  | nil => intro res h; cases h; rfl
  | cons i is ih =>
    intro res h
    unfold promiseAll at h
    cases hf : f i with
    | error e => rw [hf] at h; cases h
    | ok a =>
      cases hp : promiseAll f is with
      | error e => rw [hf, hp] at h; cases h
      | ok as =>
        rw [hf, hp] at h
        cases h
        simp [ih hp]

/-- A rejected top-stories request makes the scout variant's Hacker News
fetch reject. -/
lemma fetchHackerNews_netError {env : HNEnv} (limit : Nat)
    (h : env.top = Upstream.netError) :
    fetchHackerNews env limit = Except.error () := by
  simp [fetchHackerNews, h]

/-- An unparsable top-stories body makes the scout variant's Hacker News
fetch reject, whatever the response status (the scout fetcher never checks
the status, so a non-success status surfaces only through its body). -/
lemma fetchHackerNews_parseError {env : HNEnv} (limit : Nat) {ok : Bool}
    (h : env.top = Upstream.response ok (Except.error ())) :
    fetchHackerNews env limit = Except.error () := by
  simp [fetchHackerNews, h]

/-- Any failed per-item request among the first `limit` ids makes the scout
variant's Hacker News fetch reject. -/
lemma fetchHackerNews_itemError {env : HNEnv} {limit : Nat} {ok : Bool} {ids : List Nat}
    (h : env.top = Upstream.response ok (Except.ok ids))
    (hp : promiseAll env.item (ids.take limit) = Except.error ()) :
    fetchHackerNews env limit = Except.error () := by
  simp [fetchHackerNews, h, hp, Except.map]

/-- A rejected or unparsable Reddit response makes the scout variant's
Reddit fetch reject. -/
lemma fetchReddit_error {env : ScoutEnv} {q : String} {limit : Nat}
    (h : env.redditResp q limit = Except.error ()) :
    fetchReddit env q limit = Except.error () := by
  simp [fetchReddit, h]

/-- When the Hacker News fetch rejects, the shared scout body's catch turns
the hackernews field into the one-element error-marker list (when that
source is requested). -/
lemma scoutTrendsAt_hn_marker (limit : Nat) (input : ScoutInput) (env : ScoutEnv)
    (hf : fetchHackerNews env.hn limit = Except.error ()) :
    (scoutTrendsAt limit input env).hackernews
      = (if (input.sources.getD ["hackernews", "reddit"]).contains "hackernews" then
          some [HNEntry.fetchFailed] else none) := by
  by_cases hc : (input.sources.getD ["hackernews", "reddit"]).contains "hackernews" <;>
    simp [scoutTrendsAt, hf, hc]

/-- When the Reddit fetch rejects, the shared scout body's catch turns the
reddit field into the one-element error-marker list (when that source is
requested). -/
lemma scoutTrendsAt_reddit_marker (limit : Nat) (input : ScoutInput) (env : ScoutEnv)
    (hf : fetchReddit env (jsOrStr input.query "technology") limit = Except.error ()) :
    (scoutTrendsAt limit input env).reddit
      = (if (input.sources.getD ["hackernews", "reddit"]).contains "reddit" then
          some [RedditEntry.fetchFailed] else none) := by
  by_cases hc : (input.sources.getD ["hackernews", "reddit"]).contains "reddit" <;>
    simp [scoutTrendsAt, hf, hc]

/-- The reddit field of the shared scout body depends on the upstream only
through the Reddit responses. -/
lemma scoutTrendsAt_reddit_congr (limit : Nat) (input : ScoutInput) {env env' : ScoutEnv}
    (hr : env.redditResp = env'.redditResp) :
    (scoutTrendsAt limit input env).reddit = (scoutTrendsAt limit input env').reddit := by
  have hfr : forall q l, fetchReddit env q l = fetchReddit env' q l := by
    intro q l
    unfold fetchReddit
    rw [hr]
  simp only [scoutTrendsAt, hfr]

/-- The hackernews field of the shared scout body depends on the upstream
only through the Hacker News environment. -/
lemma scoutTrendsAt_hn_congr (limit : Nat) (input : ScoutInput) {env env' : ScoutEnv}
    (hh : env.hn = env'.hn) :
    (scoutTrendsAt limit input env).hackernews = (scoutTrendsAt limit input env').hackernews := by
  simp only [scoutTrendsAt, hh]

/-- C1 counterexample: in a scout invocation whose Hacker News top-stories
request rejects with a network error, the caught failure yields the
one-element error-marker list `[{error: 'Failed to fetch'}]` for that
source, not an empty sequence. -/
theorem C1_counterexample :
    (scoutHandler { sources := some ["hackernews"], query := none } envHNFail).hackernews
      = some [HNEntry.fetchFailed] ∧
    some [HNEntry.fetchFailed] ≠ some ([] : List HNEntry) := by
  constructor
  · rfl
  · decide

/-- C1 (amended): every failure of a source fetch is contained at that
source's boundary, never raises to the caller, and never prevents the
other requested sources from contributing.  In the aggregator's fetchers a
network error, non-success status, parse failure, or failed per-item
request yields an empty sequence for the failed source, and the
`get-trends` result is exactly as if that source had successfully returned
no items.  In both the scout and the deep-scout handler the per-source
try/catch contains every rejected fetch -- a network error, an unparsable
top-stories body (the scout fetchers do not check the response status, so
a non-success status surfaces only through its body), a failed per-item
request, or a rejected/unparsable Reddit response -- and yields the
one-element error-marker list for that source instead of an empty
sequence, while each source's field depends on the upstream only through
its own source's responses. -/
theorem C1_error_containment :
    (∀ u : Upstream (List RedditPost), u.isErr = true → fetchRedditTrends u = []) ∧
    (∀ u : Upstream (List LobStory), u.isErr = true → fetchLobstersTrends u = []) ∧
    (∀ env : HNEnv, env.top.isErr = true → fetchHNTrends env = []) ∧
    (∀ (env : HNEnv) (ids : List Nat), env.top = Upstream.response true (Except.ok ids) →
      promiseAll env.item (ids.take 10) = Except.error () → fetchHNTrends env = []) ∧
    (∀ (input : TrendsInput) (env : AggEnv) (u : Upstream (List RedditPost)),
      fetchRedditTrends u = [] →
      getTrends input { env with reddit := u }
        = getTrends input { env with reddit := Upstream.response true (Except.ok []) }) ∧
    (∀ (input : TrendsInput) (env : AggEnv) (h : HNEnv), fetchHNTrends h = [] →
      getTrends input { env with hn := h }
        = getTrends input
            { env with hn := { top := Upstream.response true (Except.ok []), item := h.item } }) ∧
    (∀ (input : TrendsInput) (env : AggEnv) (u : Upstream (List LobStory)),
      fetchLobstersTrends u = [] →
      getTrends input { env with lobsters := u }
        = getTrends input { env with lobsters := Upstream.response true (Except.ok []) }) ∧
    (∀ (input : ScoutInput) (env : ScoutEnv), env.hn.top = Upstream.netError →
      (scoutHandler input env).hackernews
        = (if (input.sources.getD ["hackernews", "reddit"]).contains "hackernews" then
            some [HNEntry.fetchFailed] else none) ∧
      (deepScoutHandler input env).hackernews
        = (if (input.sources.getD ["hackernews", "reddit"]).contains "hackernews" then
            some [HNEntry.fetchFailed] else none)) ∧
    (∀ (input : ScoutInput) (env : ScoutEnv) (ok : Bool),
      env.hn.top = Upstream.response ok (Except.error ()) →
      (scoutHandler input env).hackernews
        = (if (input.sources.getD ["hackernews", "reddit"]).contains "hackernews" then
            some [HNEntry.fetchFailed] else none) ∧
      (deepScoutHandler input env).hackernews
        = (if (input.sources.getD ["hackernews", "reddit"]).contains "hackernews" then
            some [HNEntry.fetchFailed] else none)) ∧
    (∀ (input : ScoutInput) (env : ScoutEnv) (ok : Bool) (ids : List Nat),
      env.hn.top = Upstream.response ok (Except.ok ids) →
      (promiseAll env.hn.item (ids.take 5) = Except.error () →
        (scoutHandler input env).hackernews
          = (if (input.sources.getD ["hackernews", "reddit"]).contains "hackernews" then
              some [HNEntry.fetchFailed] else none)) ∧
      (promiseAll env.hn.item (ids.take 15) = Except.error () →
        (deepScoutHandler input env).hackernews
          = (if (input.sources.getD ["hackernews", "reddit"]).contains "hackernews" then
              some [HNEntry.fetchFailed] else none))) ∧
    (∀ (input : ScoutInput) (env : ScoutEnv),
      (env.redditResp (jsOrStr input.query "technology") 5 = Except.error () →
        (scoutHandler input env).reddit
          = (if (input.sources.getD ["hackernews", "reddit"]).contains "reddit" then
              some [RedditEntry.fetchFailed] else none)) ∧
      (env.redditResp (jsOrStr input.query "technology") 15 = Except.error () →
        (deepScoutHandler input env).reddit
          = (if (input.sources.getD ["hackernews", "reddit"]).contains "reddit" then
              some [RedditEntry.fetchFailed] else none))) ∧
    (∀ (input : ScoutInput) (env env' : ScoutEnv), env.redditResp = env'.redditResp →
      (scoutHandler input env).reddit = (scoutHandler input env').reddit ∧
      (deepScoutHandler input env).reddit = (deepScoutHandler input env').reddit) ∧
    (∀ (input : ScoutInput) (env env' : ScoutEnv), env.hn = env'.hn →
      (scoutHandler input env).hackernews = (scoutHandler input env').hackernews ∧
      (deepScoutHandler input env).hackernews = (deepScoutHandler input env').hackernews) := by
  refine ⟨?_, ?_, ?_, ?_, ?_, ?_, ?_, ?_, ?_, ?_, ?_, ?_, ?_⟩
  · intro u hu
    cases u with
    | netError => rfl
    | response ok body =>
      cases ok with
      | false => rfl
      | true => cases body with
        | error e => rfl
        | ok posts => simp [Upstream.isErr] at hu
  · intro u hu
    cases u with
    | netError => rfl
    | response ok body =>
      cases ok with
      | false => rfl
      | true => cases body with
        | error e => rfl
        | ok stories => simp [Upstream.isErr] at hu
  · intro env hu
    obtain ⟨top, item⟩ := env
    cases top with
    | netError => rfl
    | response ok body =>
      cases ok with
      | false => rfl
      | true => cases body with
        | error e => rfl
        | ok ids => simp [Upstream.isErr] at hu
  · intro env ids htop hpa
    obtain ⟨top, item⟩ := env
    simp only at htop hpa
    subst htop
    simp [fetchHNTrends, hpa]
  · intro input env u hu
    refine getTrends_env_congr input ?_ rfl
    intro s
    cases s with
    | reddit => exact hu
    | hackernews => rfl
    | lobsters => rfl
    | all => rfl
  · intro input env h hh
    refine getTrends_env_congr input ?_ rfl
    intro s
    cases s with
    | reddit => rfl
    | hackernews => exact hh
    | lobsters => rfl
    | all => rfl
  · intro input env u hu
    refine getTrends_env_congr input ?_ rfl
    intro s
    cases s with
    | reddit => rfl
    | hackernews => rfl
    | lobsters => exact hu
    | all => rfl
  · intro input env htop
    exact ⟨scoutTrendsAt_hn_marker 5 input env (fetchHackerNews_netError 5 htop),
           scoutTrendsAt_hn_marker 15 input env (fetchHackerNews_netError 15 htop)⟩
  · intro input env ok htop
    exact ⟨scoutTrendsAt_hn_marker 5 input env (fetchHackerNews_parseError 5 htop),
           scoutTrendsAt_hn_marker 15 input env (fetchHackerNews_parseError 15 htop)⟩
  · intro input env ok ids htop
    constructor
    · intro hp
      exact scoutTrendsAt_hn_marker 5 input env (fetchHackerNews_itemError htop hp)
    · intro hp
      exact scoutTrendsAt_hn_marker 15 input env (fetchHackerNews_itemError htop hp)
  · intro input env
    constructor
    · intro hr
      exact scoutTrendsAt_reddit_marker 5 input env (fetchReddit_error hr)
    · intro hr
      exact scoutTrendsAt_reddit_marker 15 input env (fetchReddit_error hr)
  · intro input env env' hr
    exact ⟨scoutTrendsAt_reddit_congr 5 input hr, scoutTrendsAt_reddit_congr 15 input hr⟩
  · intro input env env' hh
    exact ⟨scoutTrendsAt_hn_congr 5 input hh, scoutTrendsAt_hn_congr 15 input hh⟩

/-- C1 witness: at concrete inputs, a rejected Reddit request yields the
empty sequence in the aggregator's fetcher, and a rejected Hacker News
top-stories request yields the error-marker list in both the scout and the
deep-scout handler. -/
theorem C1_witness :
    fetchRedditTrends Upstream.netError = [] ∧
    (scoutHandler { sources := some ["hackernews"], query := none } envHNFail).hackernews
      = some [HNEntry.fetchFailed] ∧
    (deepScoutHandler { sources := some ["hackernews"], query := none } envHNFail).hackernews
      = some [HNEntry.fetchFailed] := by
  have h8 := C1_error_containment.2.2.2.2.2.2.2.1
    ({ sources := some ["hackernews"], query := none } : ScoutInput) envHNFail rfl
  refine ⟨C1_error_containment.1 Upstream.netError rfl, ?_, ?_⟩
  · rw [h8.1]
    decide
  · rw [h8.2]
    decide

/-- C2: the `trends` sequence of every `get-trends` result is sorted by
score descending with a missing score ranked as 0, and the sort is stable:
for every key, the items of the result carrying that key are an initial
segment of the items of the concatenated fetch results carrying that key,
in their original relative order. -/
theorem C2_trends_sorted_stable (input : TrendsInput) (env : AggEnv) :
    List.Pairwise (fun a b => scoreKey b ≤ scoreKey a) (getTrends input env).trends ∧
    ∀ k : Int, ∃ rest : List TrendItem,
      (getTrends input env).trends.filter (fun y => scoreKey y == k) ++ rest
        = (allTrendsOf input env).filter (fun y => scoreKey y == k) := by
  constructor
  · exact List.Pairwise.sublist (List.take_sublist _ _) (List.sorted_insertionSort keyGE _)
  · intro k
    refine ⟨((List.insertionSort keyGE (allTrendsOf input env)).drop input.limit).filter
      (fun y => scoreKey y == k), ?_⟩
    show ((List.insertionSort keyGE (allTrendsOf input env)).take input.limit).filter
        (fun y => scoreKey y == k) ++ _ = _
    rw [← List.filter_append, List.take_append_drop, filter_insertionSort_keyGE]

/-- C3: for every valid query (limit between 1 and 50), the returned trends
sequence has length at most the query's limit. -/
theorem C3_limit_bound (input : TrendsInput) (env : AggEnv)
    (_h1 : 1 ≤ input.limit) (_h2 : input.limit ≤ 50) :
    (getTrends input env).trends.length ≤ input.limit :=
  List.length_take_le _ _

/-- C3 witness: a concrete all-sources query with limit 3. -/
theorem C3_witness :
    (getTrends { sources := [SrcTag.all], limit := 3, category := none } envW).trends.length ≤ 3 :=
  C3_limit_bound { sources := [SrcTag.all], limit := 3, category := none } envW
    (by decide) (by decide)

/-- C4: every returned item's source tag belongs to the query's expanded
source set, and the result's sources list is a subset of that expanded
set. -/
theorem C4_source_membership (input : TrendsInput) (env : AggEnv) :
    (∀ it ∈ (getTrends input env).trends, it.source ∈ (requestedOf input).map SrcTag.str) ∧
    (∀ s ∈ (getTrends input env).sources, s ∈ (requestedOf input).map SrcTag.str) := by
  constructor
  · intro it hit
    have h2 : it ∈ List.insertionSort keyGE (allTrendsOf input env) :=
      (List.take_sublist input.limit (List.insertionSort keyGE (allTrendsOf input env))).mem hit
    have h1 : it ∈ allTrendsOf input env := (List.mem_insertionSort keyGE).mp h2
    obtain ⟨s, hs, hmem⟩ := List.mem_flatMap.mp h1
    rw [source_fetchFor hmem]
    exact List.mem_map_of_mem SrcTag.str (mem_dispatched hs)
  · intro s hs
    obtain ⟨tag, htag, rfl⟩ := List.mem_map.mp hs
    exact List.mem_map_of_mem SrcTag.str (mem_dispatched (List.mem_of_mem_filter htag))

/-- C4 witness: the Reddit item of a concrete all-sources query carries a
tag in the expanded source set. -/
theorem C4_witness :
    (redditItem postA).source
      ∈ (requestedOf { sources := [SrcTag.all], limit := 3, category := none }).map SrcTag.str :=
  (C4_source_membership { sources := [SrcTag.all], limit := 3, category := none } envW).1
    (redditItem postA) (by decide)

/-- C5 counterexample: the limit-parameterized Hacker News fetch of the
scout variant does not fall back to a constructed discussion link: a story
with no external url is returned with an absent url. -/
theorem C5_counterexample :
    fetchHackerNews hnEnvNoUrl 1
      = Except.ok [{ title := "t", url := none, score := some 1, byUser := "u", comments := 0 }] ∧
    ({ title := "t", url := none, score := some 1, byUser := "u", comments := 0 } : HNOut).url
      ≠ some ("https://news.ycombinator.com/item?id=" ++ toString storyNoUrl.id) := by
  constructor
  · rfl
  · simp

/-- C5 (amended): the scout variant's `fetchHackerNews` takes a per-call
limit: it retrieves the ordered top-story ids, takes the first `limit`,
fetches each of them, and maps each to an item whose comments count
defaults to zero but whose url is copied as-is with no fallback.  The
aggregator's `fetchHNTrends` applies the discussion-link url fallback and
the comments default, but uses a fixed count of 10 instead of a per-call
limit. -/
theorem C5_hn_fetch :
    (∀ (env : HNEnv) (limit : Nat) (ids : List Nat) (stories : List HNStory),
      env.top = Upstream.response true (Except.ok ids) →
      promiseAll env.item (ids.take limit) = Except.ok stories →
      fetchHackerNews env limit = Except.ok (stories.map hnOutOf) ∧
      stories.length ≤ limit ∧
      ∀ s ∈ stories, (hnOutOf s).url = s.url ∧ (hnOutOf s).comments = s.descendants.getD 0) ∧
    (∀ (env : HNEnv) (ids : List Nat) (stories : List HNStory),
      env.top = Upstream.response true (Except.ok ids) →
      promiseAll env.item (ids.take 10) = Except.ok stories →
      fetchHNTrends env = stories.map hnItemOf ∧
      stories.length ≤ 10 ∧
      ∀ s ∈ stories,
        (hnItemOf s).url
            = some (jsOrStr s.url ("https://news.ycombinator.com/item?id=" ++ toString s.id)) ∧
        (hnItemOf s).comments = some (s.descendants.getD 0)) := by
  constructor
  · intro env limit ids stories htop hpa
    obtain ⟨top, item⟩ := env
    simp only at htop hpa
    subst htop
    refine ⟨?_, ?_, ?_⟩
    · simp [fetchHackerNews, hpa, Except.map]
    · rw [promiseAll_ok_length hpa]
      exact List.length_take_le _ _
    · intro s _
      exact ⟨rfl, rfl⟩
  · intro env ids stories htop hpa
    obtain ⟨top, item⟩ := env
    simp only at htop hpa
    subst htop
    refine ⟨?_, ?_, ?_⟩
    · simp [fetchHNTrends, hpa]
    · rw [promiseAll_ok_length hpa]
      exact List.length_take_le _ _
    · intro s _
      exact ⟨rfl, rfl⟩

/-- C5 witness: the amended characterization evaluated on the one-story
environment with limit 1. -/
theorem C5_witness :
    fetchHackerNews hnEnvNoUrl 1 = Except.ok ([storyNoUrl].map hnOutOf) ∧
    ([storyNoUrl] : List HNStory).length ≤ 1 ∧
    ∀ s ∈ [storyNoUrl], (hnOutOf s).url = s.url ∧ (hnOutOf s).comments = s.descendants.getD 0 :=
  C5_hn_fetch.1 hnEnvNoUrl 1 [1] [storyNoUrl] rfl rfl

/-- C6 counterexample: with identical inputs and identical (here trivially
identical, since no source is requested) per-source fetch outcomes, the
scout and deep-scout outputs are not identical: deep-scout carries a
`totalItems` field that scout lacks. -/
theorem C6_counterexample :
    scoutHandler { sources := some [], query := none } envScoutW ≠
      deepScoutHandler { sources := some [], query := none } envScoutW := by
  decide

/-- C6 (amended): scout and deep-scout compute the same function of their
input except for the per-source fetch limit (5 for scout, 15 for
deep-scout) and except that deep-scout additionally reports `totalItems`,
the sum of the lengths of the returned per-source lists; all other output
fields agree with the shared body at the respective limit. -/
theorem C6_scout_deep_relation (input : ScoutInput) (env : ScoutEnv) :
    scoutHandler input env = scoutTrendsAt 5 input env ∧
    deepScoutHandler input env =
      { scoutTrendsAt 15 input env with
        totalItems := some (optLen (scoutTrendsAt 15 input env).hackernews
          + optLen (scoutTrendsAt 15 input env).reddit) } :=
  ⟨rfl, rfl⟩

/-- C7: when every dispatched source's fetch yields no items, `get-trends`
still returns a result (no error path exists in the model) whose trends
sequence and sources list are both empty. -/
theorem C7_total_failure (input : TrendsInput) (env : AggEnv)
    (h : ∀ s ∈ dispatched (requestedOf input), fetchFor env s = []) :
    getTrends input env = { trends := [], sources := [], timestamp := env.now } := by
  have hall : allTrendsOf input env = [] := List.flatMap_eq_nil_iff.mpr h
  have hss : successSourcesOf input env = [] := by
    rw [successSourcesOf, List.map_eq_nil_iff, List.filter_eq_nil_iff]
    intro s hs
    rw [h s hs]
    simp
  simp [getTrends, hall, hss, List.take_nil]

/-- C7 witness: the spec's concrete scenario, a lobsters-only query whose
Lobsters fetch rejects. -/
theorem C7_witness :
    getTrends { sources := [SrcTag.lobsters], limit := 5, category := none } envFail
      = { trends := [], sources := [], timestamp := envFail.now } :=
  C7_total_failure { sources := [SrcTag.lobsters], limit := 5, category := none } envFail
    (by decide)

/-- C8: a sources list containing the wildcard expands to exactly the full
known tag set, and the `get-trends` result depends on the sources list only
through membership, so the order of the expanded set is insignificant. -/
theorem C8_wildcard_expansion :
    (∀ input : TrendsInput, input.sources.contains SrcTag.all = true →
      requestedOf input = [SrcTag.reddit, SrcTag.hackernews, SrcTag.lobsters]) ∧
    (∀ (l1 l2 : List SrcTag) (limit : Nat) (cat : Option String) (env : AggEnv),
      (∀ s, s ∈ l1 ↔ s ∈ l2) →
      getTrends ⟨l1, limit, cat⟩ env = getTrends ⟨l2, limit, cat⟩ env) := by
  constructor
  · intro input h
    simp only [requestedOf, h]
    rfl
  · intro l1 l2 limit cat env h
    exact getTrends_sources_congr limit cat env h

/-- C8 witness: the wildcard query expands to the full tag set, and two
permutations of the same source set give the same result. -/
theorem C8_witness :
    requestedOf { sources := [SrcTag.all], limit := 3, category := none }
      = [SrcTag.reddit, SrcTag.hackernews, SrcTag.lobsters] ∧
    getTrends ⟨[SrcTag.reddit, SrcTag.hackernews], 3, none⟩ envW
      = getTrends ⟨[SrcTag.hackernews, SrcTag.reddit], 3, none⟩ envW :=
  ⟨C8_wildcard_expansion.1 { sources := [SrcTag.all], limit := 3, category := none } rfl,
   C8_wildcard_expansion.2 [SrcTag.reddit, SrcTag.hackernews] [SrcTag.hackernews, SrcTag.reddit]
     3 none envW (by intro s; cases s <;> simp)⟩

/-- C9: the fetch dispatch is membership-based, so each distinct source is
fetched at most once (the dispatched list has no duplicates), and a query
with duplicate source tags returns the same result as the deduplicated
query. -/
theorem C9_duplicate_sources (input : TrendsInput) (env : AggEnv) :
    (dispatched (requestedOf input)).Nodup ∧
    getTrends { input with sources := input.sources.dedup } env = getTrends input env := by
  refine ⟨nodup_dispatched _, ?_⟩
  exact getTrends_sources_congr input.limit input.category env (fun s => List.mem_dedup)

/-- C10: the deep-scout output's `totalItems` equals the length of the
returned hackernews list plus the length of the returned reddit list, an
absent (unrequested) source counting as zero. -/
theorem C10_totalItems (input : ScoutInput) (env : ScoutEnv) :
    (deepScoutHandler input env).totalItems
      = some (optLen (deepScoutHandler input env).hackernews
          + optLen (deepScoutHandler input env).reddit) ∧
    ((input.sources.getD ["hackernews", "reddit"]).contains "hackernews" = false →
      (deepScoutHandler input env).hackernews = none) ∧
    ((input.sources.getD ["hackernews", "reddit"]).contains "reddit" = false →
      (deepScoutHandler input env).reddit = none) := by
  refine ⟨rfl, ?_, ?_⟩ <;> intro h <;> simp only [deepScoutHandler, h] <;> rfl

/-- C10 witness: with no requested sources, both per-source lists are
absent and count as zero. -/
theorem C10_witness :
    (deepScoutHandler { sources := some [], query := none } envScoutW).hackernews = none ∧
    (deepScoutHandler { sources := some [], query := none } envScoutW).reddit = none :=
  ⟨(C10_totalItems { sources := some [], query := none } envScoutW).2.1 (by decide),
   (C10_totalItems { sources := some [], query := none } envScoutW).2.2 (by decide)⟩
